import Mathlib

/-!
Shallow embedding of the Small Radio Telescope control daemon
(`daemon/daemon.py`, class `SmallRadioTelescopeDaemon`).

Angles and frequencies (Python floats) are modelled as rationals.
External primitives that the daemon calls but does not implement —
Python's `float()` parser, `np.cos`, `np.pi`, the radio XML-RPC
endpoint and the `calibration.json` read performed after a
`calibrate` command — are bundled in a `Prims` record, so that each
theorem quantifies over them.  A raised Python exception is modelled
by the `Exc` type returned alongside the mutated state; the main
command loop catches exactly `IndexError`, `ValueError` and
`ConnectionRefusedError` (daemon.py lines 382-387).
-/

namespace SRT

/-- A `RadioSaveRawTask` object: its sample rate and whether it is live
(started and not terminated).  `daemon.py` keeps a reference
`self.radio_save_raw_task` to at most one such object; we keep every
created task in a list and model the reference as an index, so that a
terminated-but-still-referenced task is representable. -/
structure RecTask where
  rate : ℚ
  live : Bool
deriving DecidableEq, Repr

/-- Python exception kinds that the daemon code can raise while a
command is interpreted, each carrying its `str(e)` message. -/
inductive Exc where
  | indexError (msg : String)
  | valueError (msg : String)
  | connRefused (msg : String)
  | fileNotFound (msg : String)
  | keyError (msg : String)
deriving DecidableEq, Repr

/-- Result of opening and JSON-decoding `calibration.json`
(daemon.py lines 320-324): success with the decoded fields, a missing
file (Python `FileNotFoundError` from `open`), or undecodable content
(Python `json.JSONDecodeError`, a subclass of `ValueError`). -/
inductive CalRead where
  | ok (vals : List ℚ) (pwr : ℚ)
  | missing
  | badJson
deriving DecidableEq, Repr

/-- External primitives used by the interpreter: `float` is Python's
`float()` (`none` = `ValueError`), `cos`/`pi` are `np.cos`/`np.pi`,
`rpcOk` tells whether calls on the radio RPC proxy succeed or raise
`ConnectionRefusedError`, and `calRead` is the outcome of re-reading
`calibration.json` during a `calibrate` command. -/
structure Prims where
  float : String → Option ℚ
  cos : ℚ → ℚ
  pi : ℚ
  rpcOk : Bool
  calRead : CalRead

/-- The mutable fields of `SmallRadioTelescopeDaemon` that the command
interpreter, the ephemeris updater and shutdown touch. -/
structure DaemonState where
  az_limits : ℚ × ℚ
  el_limits : ℚ × ℚ
  stow_location : ℚ × ℚ
  beamwidth : ℚ
  motor_offsets : ℚ × ℚ
  rotor_cmd_location : ℚ × ℚ
  ephemeris_cmd_location : Option String
  ephemeris_locations : List (String × (ℚ × ℚ))
  radio_center_frequency : ℚ
  radio_sample_frequency : ℚ
  cal_values : List ℚ
  cal_power : ℚ
  tasks : List RecTask
  radio_save_raw_task : Option ℕ
  command_error_logs : List String
  keep_running : Bool
deriving DecidableEq, Repr

/-- Pointwise pair addition: Python `tuple(map(add, p, q))`. -/
def addPose (p q : ℚ × ℚ) : ℚ × ℚ := (p.1 + q.1, p.2 + q.2)

/-- Modelled from the spec: `Rotor.angles_within_bounds` lives in the
external `rotor_control.rotors` module, not under `src/`.  Spec §3
(Limits): "two inclusive intervals `[az_lo, az_hi]`, `[el_lo, el_hi]`.
A pose is in bounds iff both components lie within the respective
interval." -/
def angles_within_bounds (azLimits elLimits : ℚ × ℚ) (az el : ℚ) : Bool :=
  decide (azLimits.1 ≤ az) && decide (az ≤ azLimits.2) &&
    decide (elLimits.1 ≤ el) && decide (el ≤ elLimits.2)

/-- Dictionary lookup in `self.ephemeris_locations`. -/
def lookupLoc (locs : List (String × (ℚ × ℚ))) (k : String) : Option (ℚ × ℚ) :=
  match locs with
  | [] => none
  | (k2, p) :: rest => if k2 = k then some p else lookupLoc rest k

/-- `self.log_message(m)` (daemon.py lines 93-95): append to
`command_error_logs` (the wall-clock timestamp is not modelled). -/
def logMsg (m : String) (s : DaemonState) : DaemonState :=
  { s with command_error_logs := s.command_error_logs ++ [m] }

/-- Mark the task at an index as no longer live (`task.terminate()`). -/
def setLive (b : Bool) : List RecTask → ℕ → List RecTask
  | [], _ => []
  | t :: ts, 0 => { t with live := b } :: ts
  | t :: ts, n + 1 => t :: setLive b ts n

/-- `self.radio_save_raw_task.terminate()`: the referenced task stops
being live; the reference itself is not cleared here. -/
def terminateRaw (s : DaemonState) : DaemonState :=
  match s.radio_save_raw_task with
  | none => s
  | some i => { s with tasks := setLive false s.tasks i }

/-- `self.radio_save_raw_task = RadioSaveRawTask(self.radio_sample_frequency,
self.save_dir); self.radio_save_raw_task.start()`: create a live task at
the current sample rate and point the reference at it. -/
def startRaw (s : DaemonState) : DaemonState :=
  { s with
    tasks := s.tasks ++ [⟨s.radio_sample_frequency, true⟩],
    radio_save_raw_task := some s.tasks.length }

/-- Number of live recording tasks. -/
def liveCount (s : DaemonState) : ℕ := (s.tasks.filter RecTask.live).length

/-- Offsets used by the `<objectKey> n` raster scan at scan index
`scan` (daemon.py lines 239-247):
`el_dif = ((scan // 5) - 2) * beamwidth * 0.5` and
`az_dif = (scan % 5 - 2) * beamwidth * 0.5
          / np.cos((el + el_dif) * np.pi / 180.0)`. -/
def scanOffsets (P : Prims) (beam el : ℚ) (scan : ℕ) : ℚ × ℚ :=
  let el_dif : ℚ := ((((scan / 5 : ℕ) : ℤ) - 2 : ℤ) : ℚ) * beam * 0.5
  let az_dif : ℚ :=
    ((((scan % 5 : ℕ) : ℤ) - 2 : ℤ) : ℚ) * beam * 0.5 /
      P.cos ((el + el_dif) * P.pi / 180)
  (az_dif, el_dif)

/-- One iteration of the raster-scan loop body (daemon.py lines
235-256): set `motor_offsets` to the scan offsets and point the rotor
at the object position plus those offsets.  (The in-range wait and the
5 s dwell do not change interpreter state.) -/
def scanStep (P : Prims) (pos : ℚ × ℚ) (s : DaemonState) (scan : ℕ) : DaemonState :=
  let offs := scanOffsets P s.beamwidth pos.2 scan
  { s with motor_offsets := offs, rotor_cmd_location := addPose pos offs }

/-- Fold step that also records the state after each pointing, so the
sequence of pointings performed by a scan is available to reason about. -/
def nPointScanFold (P : Prims) (pos : ℚ × ℚ)
    (acc : DaemonState × List DaemonState) (scan : ℕ) :
    DaemonState × List DaemonState :=
  let s2 := scanStep P pos acc.1 scan
  (s2, acc.2 ++ [s2])

/-- `<objectKey> n` (daemon.py lines 231-258): clear
`ephemeris_cmd_location`, run the 25 scan pointings, then reset the
offsets to `(0, 0)` and restore `ephemeris_cmd_location` to the key.
Returns the final state together with the per-pointing state trace. -/
def nPointScanRun (P : Prims) (key : String) (pos : ℚ × ℚ) (s : DaemonState) :
    DaemonState × List DaemonState :=
  let s0 := { s with ephemeris_cmd_location := none }
  let r := (List.range 25).foldl (nPointScanFold P pos) (s0, [])
  ({ r.1 with motor_offsets := (0, 0), ephemeris_cmd_location := some key }, r.2)

/-- Azimuth offset used by the `<objectKey> b` beam-switch at step `j`
(daemon.py lines 266-271). -/
def beamOffsets (P : Prims) (beam el : ℚ) (j : ℤ) : ℚ × ℚ :=
  ((j : ℚ) * beam / P.cos (el * P.pi / 180), 0)

/-- `<objectKey> b` (daemon.py lines 259-282): clear tracking, point at
`j * beamwidth / cos` azimuth offsets for `j in range(-1, 2)`, then
reset offsets and restore tracking. -/
def beamSwitchRun (P : Prims) (key : String) (pos : ℚ × ℚ) (s : DaemonState) :
    DaemonState :=
  let s0 := { s with ephemeris_cmd_location := none }
  let s1 := ([-1, 0, 1] : List ℤ).foldl
    (fun st j =>
      let offs := beamOffsets P st.beamwidth pos.2 j
      { st with motor_offsets := offs, rotor_cmd_location := addPose pos offs })
    s0
  { s1 with motor_offsets := (0, 0), ephemeris_cmd_location := some key }

/-- Plain object tracking (daemon.py lines 283-300): if the raw object
position is within the rotor bounds, track it and point at position
plus current offsets; otherwise log and clear tracking. -/
def trackObject (key : String) (pos : ℚ × ℚ) (s : DaemonState) : DaemonState :=
  if angles_within_bounds s.az_limits s.el_limits pos.1 pos.2 then
    { s with
      ephemeris_cmd_location := some key,
      rotor_cmd_location := addPose pos s.motor_offsets }
  else
    logMsg s!"Object {key} Not in Motor Bounds"
      { s with ephemeris_cmd_location := none }

/-- Python `str.lower` restricted to the ASCII command strings the
daemon receives, written structurally on the character list. -/
def pyLower (str : String) : String :=
  ⟨str.data.map Char.toLower⟩

/-- Python `str.isnumeric` restricted to the ASCII command strings the
daemon receives. -/
def pyIsNumeric (str : String) : Bool :=
  !str.data.isEmpty && str.data.all Char.isDigit

/-- Python `str.strip`: drop whitespace from both ends. -/
def pyStrip (str : String) : String :=
  ⟨((str.data.dropWhile Char.isWhitespace).reverse.dropWhile
      Char.isWhitespace).reverse⟩

/-- Python `str.split(" ")` on the character list: split at every
single space, keeping empty pieces. -/
def pySplitSpace : List Char → List String
  | [] => [""]
  | c :: cs =>
    if c = ' ' then "" :: pySplitSpace cs
    else
      match pySplitSpace cs with
      | [] => [⟨[c]⟩]
      | p :: ps => (⟨c :: p.data⟩ : String) :: ps

/-- The message of Python `IndexError` on a too-short `command_parts`. -/
def idxMsg : String := "list index out of range"

/-- The message of Python `ValueError` from `float()`. -/
def valMsg : String := "could not convert string to float"

/-- The message of Python `ConnectionRefusedError` from the RPC proxy. -/
def rpcMsg : String := "Connection refused"

/-- The message of Python `FileNotFoundError` for `calibration.json`. -/
def fnfMsg : String := "No such file or directory: calibration.json"

/-- The command dispatch of `srt_daemon_main` (daemon.py lines
228-380), applied to the already-split `command_parts` list.  Returns
the mutated state and the exception raised inside the `try` body, if
any.  Branch order follows the source: object-key dispatch first, then
the built-in names. -/
def execTokens (P : Prims) (parts : List String) (command : String)
    (s : DaemonState) : DaemonState × Option Exc :=
  let head := parts.headD ""
  let command_name := pyLower head
  match lookupLoc s.ephemeris_locations head with
  | some pos =>
    if parts.get? 1 = some "n" then
      ((nPointScanRun P head pos s).1, none)
    else if parts.get? 1 = some "b" then
      (beamSwitchRun P head pos s, none)
    else
      (trackObject head pos s, none)
  | none =>
    if pyIsNumeric command_name then
      (s, none)
    else if command_name = "wait" then
      match parts.get? 1 with
      | none => (s, some (.indexError idxMsg))
      | some a =>
        match P.float a with
        | none => (s, some (.valueError valMsg))
        | some _ => (s, none)
    else if command_name = "stow" then
      ({ s with
          ephemeris_cmd_location := none,
          rotor_cmd_location := s.stow_location }, none)
    else if command_name = "calibrate" then
      match P.calRead with
      | .ok vals pwr =>
        let s1 := { s with cal_values := vals, cal_power := pwr }
        if P.rpcOk then (logMsg "Calibration Done" s1, none)
        else (s1, some (.connRefused rpcMsg))
      | .missing => (s, some (.fileNotFound fnfMsg))
      | .badJson => (s, some (.valueError "Expecting value"))
    else if command_name = "quit" then
      let s1 := { s with keep_running := false }
      if P.rpcOk then (s1, none) else (s1, some (.connRefused rpcMsg))
    else if command_name = "record" then
      match s.radio_save_raw_task with
      | none => (startRaw s, none)
      | some _ => (logMsg "Cannot Start Recording - Already Recording" s, none)
    else if command_name = "roff" then
      match s.radio_save_raw_task with
      | none => (s, none)
      | some _ => ({ terminateRaw s with radio_save_raw_task := none }, none)
    else if command_name = "freq" then
      match parts.get? 1 with
      | none => (s, some (.indexError idxMsg))
      | some a =>
        match P.float a with
        | none => (s, some (.valueError valMsg))
        | some f =>
          if P.rpcOk then
            ({ s with radio_center_frequency := f * 10 ^ 6 }, none)
          else (s, some (.connRefused rpcMsg))
    else if command_name = "samp" then
      let s1 := if s.radio_save_raw_task.isSome then terminateRaw s else s
      match parts.get? 1 with
      | none => (s1, some (.indexError idxMsg))
      | some a =>
        match P.float a with
        | none => (s1, some (.valueError valMsg))
        | some f =>
          let s2 := { s1 with radio_sample_frequency := f * 10 ^ 6 }
          if P.rpcOk then
            (if s2.radio_save_raw_task.isSome then startRaw s2 else s2, none)
          else (s2, some (.connRefused rpcMsg))
    else if command_name = "azel" then
      let s1 := { s with ephemeris_cmd_location := none }
      match parts.get? 1 with
      | none => (s1, some (.indexError idxMsg))
      | some a1 =>
        match P.float a1 with
        | none => (s1, some (.valueError valMsg))
        | some az =>
          match parts.get? 2 with
          | none => (s1, some (.indexError idxMsg))
          | some a2 =>
            match P.float a2 with
            | none => (s1, some (.valueError valMsg))
            | some el =>
              if angles_within_bounds s1.az_limits s1.el_limits az el then
                ({ s1 with
                    rotor_cmd_location := addPose (az, el) s1.motor_offsets },
                  none)
              else
                (logMsg
                  s!"Object at ({toString az}, {toString el}) Not in Motor Bounds"
                  s1, none)
    else if command_name = "offset" then
      match parts.get? 1 with
      | none => (s, some (.indexError idxMsg))
      | some a1 =>
        match P.float a1 with
        | none => (s, some (.valueError valMsg))
        | some daz =>
          match parts.get? 2 with
          | none => (s, some (.indexError idxMsg))
          | some a2 =>
            match P.float a2 with
            | none => (s, some (.valueError valMsg))
            | some del => ({ s with motor_offsets := (daz, del) }, none)
    else
      (logMsg s!"Command Not Identified {command}" s, none)

/-- The command preprocessing of `srt_daemon_main` (daemon.py lines
224-229): commands shorter than two characters or starting with `*`
are skipped; a leading `:` is stripped (with whitespace trimmed); the
rest is split on single spaces. -/
def execCommand (P : Prims) (raw : String) (s : DaemonState) :
    DaemonState × Option Exc :=
  if raw.data.length < 2 || raw.data.headD ' ' = '*' then (s, none)
  else
    let command := if raw.data.headD ' ' = ':' then pyStrip ⟨raw.data.tail⟩ else raw
    execTokens P (pySplitSpace command.data) command s

/-- Which exceptions the `except` clauses of the main loop catch
(daemon.py lines 382-387): `IndexError`, `ValueError`,
`ConnectionRefusedError`. -/
def caughtByLoop : Exc → Bool
  | .indexError _ => true
  | .valueError _ => true
  | .connRefused _ => true
  | .fileNotFound _ => false
  | .keyError _ => false

/-- `str(e)` of a modelled exception. -/
def excMessage : Exc → String
  | .indexError m => m
  | .valueError m => m
  | .connRefused m => m
  | .fileNotFound m => m
  | .keyError m => m

/-- One iteration of the `while keep_running` loop around a dequeued
command: run the command; a caught exception is logged via
`self.log_message(str(e))` and the loop continues (`none` in the
second component); any other exception propagates out of the loop. -/
def interpretOne (P : Prims) (raw : String) (s : DaemonState) :
    DaemonState × Option Exc :=
  match execCommand P raw s with
  | (s1, none) => (s1, none)
  | (s1, some e) =>
    if caughtByLoop e then (logMsg (excMessage e) s1, none) else (s1, some e)

/-- One cycle of `update_ephemeris_location` (daemon.py lines 97-116):
refresh `ephemeris_locations` (the refreshed mapping is an input,
computed by the external `EphemerisTracker`); if an object is being
tracked, re-point at its new position plus offsets when that raw
position is in bounds, else log and clear tracking.  A tracked key
missing from the mapping raises Python `KeyError`. -/
def updateEphemerisCycle (newLocs : List (String × (ℚ × ℚ))) (s : DaemonState) :
    DaemonState × Option Exc :=
  let s1 := { s with ephemeris_locations := newLocs }
  match s1.ephemeris_cmd_location with
  | none => (s1, none)
  | some key =>
    match lookupLoc s1.ephemeris_locations key with
    | none => (s1, some (.keyError key))
    | some p =>
      if angles_within_bounds s1.az_limits s1.el_limits p.1 p.2 then
        ({ s1 with rotor_cmd_location := addPose p s1.motor_offsets }, none)
      else
        (logMsg s!"Object {key} moved out of motor bounds"
          { s1 with ephemeris_cmd_location := none }, none)

/-- Configuration fields read in `__init__` (daemon.py lines 24-91)
that feed the modelled state. -/
structure Config where
  az_limits : ℚ × ℚ
  el_limits : ℚ × ℚ
  stow_location : ℚ × ℚ
  motor_offsets : ℚ × ℚ
  beamwidth : ℚ
  radio_cf : ℚ
  radio_sf : ℚ
  radio_num_bins : ℕ
  calibration_file : Option (List ℚ × ℚ)

/-- `__init__` (daemon.py lines 24-91): in particular
`self.rotor_cmd_location = tuple(map(add, self.stow_location,
self.motor_offsets))` (lines 79-81), and calibration defaults when
`calibration.json` is absent (lines 58-65). -/
def initDaemon (c : Config) (locs : List (String × (ℚ × ℚ))) : DaemonState :=
  { az_limits := c.az_limits
    el_limits := c.el_limits
    stow_location := c.stow_location
    beamwidth := c.beamwidth
    motor_offsets := c.motor_offsets
    rotor_cmd_location := addPose c.stow_location c.motor_offsets
    ephemeris_cmd_location := none
    ephemeris_locations := locs
    radio_center_frequency := c.radio_cf
    radio_sample_frequency := c.radio_sf
    cal_values :=
      match c.calibration_file with
      | some (v, _) => v
      | none => List.replicate c.radio_num_bins 1
    cal_power :=
      match c.calibration_file with
      | some (_, p) => p
      | none => 1
    tasks := []
    radio_save_raw_task := none
    command_error_logs := []
    keep_running := true }

/-- The shutdown sequence after the main loop exits (daemon.py lines
389-395): command the stow location (no offsets) and terminate any
recording. -/
def shutdownSequence (s : DaemonState) : DaemonState :=
  let s1 := { s with rotor_cmd_location := s.stow_location }
  match s1.radio_save_raw_task with
  | none => s1
  | some _ => { terminateRaw s1 with radio_save_raw_task := none }

/-- Micro-state trace of the `samp` branch: state on entry, after the
`terminate()` of an active recording, after the sample-rate
assignment, and (on RPC success) after the restart.  Built from the
same micro-operations as the `samp` branch of `execTokens`. -/
def sampTrace (P : Prims) (a : String) (s : DaemonState) : List DaemonState :=
  let s1 := if s.radio_save_raw_task.isSome then terminateRaw s else s
  match P.float a with
  | none => [s, s1]
  | some f =>
    let s2 := { s1 with radio_sample_frequency := f * 10 ^ 6 }
    if P.rpcOk then
      [s, s1, s2, if s2.radio_save_raw_task.isSome then startRaw s2 else s2]
    else [s, s1, s2]

/-- Numeric value of a digit string. -/
def digitsToNat (l : List Char) : ℕ :=
  l.foldl (fun a c => 10 * a + (c.toNat - 48)) 0

/-- A `float()` model for plain digit strings, used to instantiate
`Prims` at concrete inputs. -/
def floatOfDigits (str : String) : Option ℚ :=
  if !str.data.isEmpty && str.data.all Char.isDigit then
    some (digitsToNat str.data)
  else none

/-- A concrete primitives instance for instantiating theorems. -/
def testPrims : Prims :=
  { float := floatOfDigits
    cos := fun _ => 1
    pi := 3
    rpcOk := true
    calRead := .ok [2] 5 }

/-- Running `offset Δaz Δel` and then `azel A E` through the
interpreter dispatch, as in spec law L1. -/
def offsetThenAzel (P : Prims) (o1 o2 a1 a2 c1 c2 : String) (s : DaemonState) :
    DaemonState :=
  (execTokens P ["azel", a1, a2] c2 (execTokens P ["offset", o1, o2] c1 s).1).1

/-- A concrete daemon state for instantiating theorems. -/
def baseState : DaemonState :=
  { az_limits := (0, 360)
    el_limits := (0, 90)
    stow_location := (0, 90)
    beamwidth := 2
    motor_offsets := (0, 0)
    rotor_cmd_location := (0, 90)
    ephemeris_cmd_location := none
    ephemeris_locations := [("Sun", (120, 30)), ("Polaris", (0, 89))]
    radio_center_frequency := 1420000000
    radio_sample_frequency := 2000000
    cal_values := [1]
    cal_power := 1
    tasks := []
    radio_save_raw_task := none
    command_error_logs := []
    keep_running := true }

/-! ### Branch characterization lemmas for the command dispatch -/

lemma addPose_zero (p : ℚ × ℚ) : addPose p (0, 0) = p := by
  simp [addPose]

lemma execTokens_azel (P : Prims) (s : DaemonState) (a1 a2 c : String)
    (az el : ℚ)
    (hobj : lookupLoc s.ephemeris_locations "azel" = none)
    (h1 : P.float a1 = some az) (h2 : P.float a2 = some el) :
    execTokens P ["azel", a1, a2] c s =
      (if angles_within_bounds s.az_limits s.el_limits az el then
        ({ s with
            ephemeris_cmd_location := none,
            rotor_cmd_location := addPose (az, el) s.motor_offsets }, none)
      else
        (logMsg s!"Object at ({toString az}, {toString el}) Not in Motor Bounds"
          { s with ephemeris_cmd_location := none }, none)) := by
  by_cases hb : angles_within_bounds s.az_limits s.el_limits az el = true
  · simp +decide [execTokens, hobj, h1, h2, hb]
  · simp +decide [execTokens, hobj, h1, h2, hb]

lemma execTokens_track (P : Prims) (s : DaemonState) (key c : String)
    (rest : List String) (pos : ℚ × ℚ)
    (hobj : lookupLoc s.ephemeris_locations key = some pos)
    (hn : rest[0]? ≠ some "n") (hb : rest[0]? ≠ some "b") :
    execTokens P (key :: rest) c s = (trackObject key pos s, none) := by
  simp [execTokens, hobj, hn, hb]

lemma execTokens_stow (P : Prims) (s : DaemonState) (c : String)
    (hobj : lookupLoc s.ephemeris_locations "stow" = none) :
    execTokens P ["stow"] c s =
      ({ s with
          ephemeris_cmd_location := none,
          rotor_cmd_location := s.stow_location }, none) := by
  simp +decide [execTokens, hobj]

lemma execTokens_offset (P : Prims) (s : DaemonState) (o1 o2 c : String)
    (daz del : ℚ)
    (hobj : lookupLoc s.ephemeris_locations "offset" = none)
    (h1 : P.float o1 = some daz) (h2 : P.float o2 = some del) :
    execTokens P ["offset", o1, o2] c s =
      ({ s with motor_offsets := (daz, del) }, none) := by
  simp +decide [execTokens, hobj, h1, h2]

lemma execTokens_scan_accepts (P : Prims) (s : DaemonState) (key c : String)
    (pos : ℚ × ℚ)
    (hobj : lookupLoc s.ephemeris_locations key = some pos) :
    execTokens P [key, "n"] c s = ((nPointScanRun P key pos s).1, none) := by
  simp [execTokens, hobj]

lemma execTokens_beam_accepts (P : Prims) (s : DaemonState) (key c : String)
    (pos : ℚ × ℚ)
    (hobj : lookupLoc s.ephemeris_locations key = some pos) :
    execTokens P [key, "b"] c s = (beamSwitchRun P key pos s, none) := by
  simp [execTokens, hobj]

/-! ### C1 -/

/-- C1: counterexample.  With limits az ∈ [0, 360], el ∈ [0, 90] and
configured motor offsets (0, 10), the command `azel 180 85` is
accepted — no error is raised, no rejection is logged, and the
commanded pose is updated — yet the resulting commanded pose
(180, 95) lies outside the elevation limits.  This refutes the claim
that the commanded pose resulting from every accepted pointing
command lies within the configured motor limits. -/
theorem C1_counterexample :
    (execCommand testPrims "azel 180 85"
        { baseState with motor_offsets := (0, 10) }).2 = none ∧
    (execCommand testPrims "azel 180 85"
        { baseState with motor_offsets := (0, 10) }).1.command_error_logs = [] ∧
    (execCommand testPrims "azel 180 85"
        { baseState with motor_offsets := (0, 10) }).1.rotor_cmd_location
      = (180, 95) ∧
    angles_within_bounds (0, 360) (0, 90) 180 95 = false := by
  refine ⟨by decide, ?_, ?_, by decide⟩
  · simp +decide [execCommand, execTokens, pySplitSpace, lookupLoc, testPrims,
      baseState, floatOfDigits, digitsToNat, angles_within_bounds, addPose,
      logMsg]
  · simp +decide [execCommand, execTokens, pySplitSpace, lookupLoc, testPrims,
      baseState, floatOfDigits, digitsToNat, angles_within_bounds, addPose,
      logMsg]
    norm_num

/-- C1 (amended): for the bounds-checked pointing commands (`azel` and
plain object track) the check is applied to the raw target position,
not to the offset-adjusted commanded pose: a raw target outside the
limits is rejected with `commanded_pose` unchanged, and an accepted
command sets `commanded_pose` = target + `motor_offsets`, which lies
within the limits whenever the offsets are `(0, 0)` (but may lie
outside them otherwise).  `stow` and the n-point and beam-switch scans
are never rejected: `stow` commands the stow location and the scans
run regardless of the motor limits. -/
theorem C1_amended_bounds (P : Prims) (s : DaemonState) :
    (∀ (a1 a2 c : String) (az el : ℚ),
        lookupLoc s.ephemeris_locations "azel" = none →
        P.float a1 = some az → P.float a2 = some el →
        (angles_within_bounds s.az_limits s.el_limits az el = true →
          (execTokens P ["azel", a1, a2] c s).1.rotor_cmd_location =
              addPose (az, el) s.motor_offsets ∧
          (s.motor_offsets = (0, 0) →
            angles_within_bounds s.az_limits s.el_limits
                (execTokens P ["azel", a1, a2] c s).1.rotor_cmd_location.1
                (execTokens P ["azel", a1, a2] c s).1.rotor_cmd_location.2
              = true)) ∧
        (angles_within_bounds s.az_limits s.el_limits az el = false →
          (execTokens P ["azel", a1, a2] c s).1.rotor_cmd_location =
            s.rotor_cmd_location)) ∧
    (∀ (key c : String) (rest : List String) (pos : ℚ × ℚ),
        lookupLoc s.ephemeris_locations key = some pos →
        rest[0]? ≠ some "n" → rest[0]? ≠ some "b" →
        (angles_within_bounds s.az_limits s.el_limits pos.1 pos.2 = true →
          (execTokens P (key :: rest) c s).1.rotor_cmd_location =
              addPose pos s.motor_offsets ∧
          (s.motor_offsets = (0, 0) →
            angles_within_bounds s.az_limits s.el_limits
                (execTokens P (key :: rest) c s).1.rotor_cmd_location.1
                (execTokens P (key :: rest) c s).1.rotor_cmd_location.2
              = true)) ∧
        (angles_within_bounds s.az_limits s.el_limits pos.1 pos.2 = false →
          (execTokens P (key :: rest) c s).1.rotor_cmd_location =
            s.rotor_cmd_location)) ∧
    (∀ c : String,
        lookupLoc s.ephemeris_locations "stow" = none →
        (execTokens P ["stow"] c s).1.rotor_cmd_location = s.stow_location ∧
        (execTokens P ["stow"] c s).2 = none) ∧
    (∀ (key c : String) (pos : ℚ × ℚ),
        lookupLoc s.ephemeris_locations key = some pos →
        (execTokens P [key, "n"] c s).2 = none ∧
        (execTokens P [key, "b"] c s).2 = none) := by
  refine ⟨?_, ?_, ?_, ?_⟩
  · intro a1 a2 c az el hobj h1 h2
    rw [execTokens_azel P s a1 a2 c az el hobj h1 h2]
    constructor
    · intro hb
      refine ⟨by simp [hb], ?_⟩
      intro hz
      have hp : addPose (az, el) s.motor_offsets = (az, el) := by
        rw [hz]
        exact addPose_zero _
      simp [hb, hp]
    · intro hb
      simp [hb, logMsg]
  · intro key c rest pos hobj hn hb
    rw [execTokens_track P s key c rest pos hobj hn hb]
    constructor
    · intro hbnd
      refine ⟨by simp [trackObject, hbnd], ?_⟩
      intro hz
      have hp : addPose pos s.motor_offsets = pos := by
        rw [hz]
        exact addPose_zero _
      simp [trackObject, hbnd, hp]
    · intro hbnd
      simp [trackObject, hbnd, logMsg]
  · intro c hobj
    rw [execTokens_stow P s c hobj]
    exact ⟨rfl, rfl⟩
  · intro key c pos hobj
    rw [execTokens_scan_accepts P s key c pos hobj,
      execTokens_beam_accepts P s key c pos hobj]
    exact ⟨rfl, rfl⟩

/-- C1 witness: the amended theorem applied at a concrete accepted
`azel` command with zero offsets. -/
theorem C1_amended_bounds_witness :
    lookupLoc baseState.ephemeris_locations "azel" = none ∧
    testPrims.float "180" = some 180 ∧
    testPrims.float "45" = some 45 ∧
    ((angles_within_bounds baseState.az_limits baseState.el_limits 180 45 = true →
      (execTokens testPrims ["azel", "180", "45"] "azel 180 45"
          baseState).1.rotor_cmd_location =
          addPose (180, 45) baseState.motor_offsets ∧
      (baseState.motor_offsets = (0, 0) →
        angles_within_bounds baseState.az_limits baseState.el_limits
            (execTokens testPrims ["azel", "180", "45"] "azel 180 45"
                baseState).1.rotor_cmd_location.1
            (execTokens testPrims ["azel", "180", "45"] "azel 180 45"
                baseState).1.rotor_cmd_location.2
          = true)) ∧
    (angles_within_bounds baseState.az_limits baseState.el_limits 180 45 = false →
      (execTokens testPrims ["azel", "180", "45"] "azel 180 45"
          baseState).1.rotor_cmd_location = baseState.rotor_cmd_location)) :=
  ⟨by decide, by decide, by decide,
    (C1_amended_bounds testPrims baseState).1 "180" "45" "azel 180 45" 180 45
      (by decide) (by decide) (by decide)⟩

/-! ### C3 -/

/-- C3: counterexample.  The claimed equivalence is an `iff`; its
only-if direction fails when the prior commanded pose already happens
to equal `(A + Δaz, E + Δel)` while `(A, E)` is out of bounds: with
commanded pose (405, 50), running `offset 5 5` then `azel 400 45`
(azimuth 400 outside [0, 360]) leaves the commanded pose equal to
`(400 + 5, 45 + 5)` even though `(400, 45)` is not within the motor
limits. -/
theorem C3_counterexample :
    (execCommand testPrims "azel 400 45"
        (execCommand testPrims "offset 5 5"
          { baseState with rotor_cmd_location := (405, 50) }).1).1.rotor_cmd_location
      = (400 + 5, 45 + 5) ∧
    angles_within_bounds baseState.az_limits baseState.el_limits 400 45
      = false := by
  refine ⟨?_, by decide⟩
  simp +decide [execCommand, execTokens, pySplitSpace, lookupLoc, testPrims,
    baseState, floatOfDigits, digitsToNat, angles_within_bounds, addPose,
    logMsg]
  norm_num

/-- C3 (amended): after `offset Δaz Δel` followed by `azel A E`, the
commanded pose equals `(A + Δaz, E + Δel)` when `(A, E)` is within the
motor limits, and is left unchanged when it is not (the bounds check
is applied to `(A, E)`, not to the offset sum); hence the claimed
equivalence holds whenever the prior commanded pose differs from
`(A + Δaz, E + Δel)`. -/
theorem C3_offset_azel (P : Prims) (s : DaemonState) (o1 o2 a1 a2 c1 c2 : String)
    (daz del A E : ℚ)
    (hoff : lookupLoc s.ephemeris_locations "offset" = none)
    (hazl : lookupLoc s.ephemeris_locations "azel" = none)
    (ho1 : P.float o1 = some daz) (ho2 : P.float o2 = some del)
    (ha1 : P.float a1 = some A) (ha2 : P.float a2 = some E) :
    (angles_within_bounds s.az_limits s.el_limits A E = true →
      (offsetThenAzel P o1 o2 a1 a2 c1 c2 s).rotor_cmd_location
        = (A + daz, E + del)) ∧
    (angles_within_bounds s.az_limits s.el_limits A E = false →
      (offsetThenAzel P o1 o2 a1 a2 c1 c2 s).rotor_cmd_location
        = s.rotor_cmd_location) ∧
    (s.rotor_cmd_location ≠ (A + daz, E + del) →
      ((offsetThenAzel P o1 o2 a1 a2 c1 c2 s).rotor_cmd_location
          = (A + daz, E + del) ↔
        angles_within_bounds s.az_limits s.el_limits A E = true)) := by
  have hstep :
      offsetThenAzel P o1 o2 a1 a2 c1 c2 s =
        (execTokens P ["azel", a1, a2] c2
          { s with motor_offsets := (daz, del) }).1 := by
    rw [offsetThenAzel, execTokens_offset P s o1 o2 c1 daz del hoff ho1 ho2]
  have hazl2 : lookupLoc ({ s with motor_offsets := (daz, del) } :
      DaemonState).ephemeris_locations "azel" = none := hazl
  rw [hstep, execTokens_azel P { s with motor_offsets := (daz, del) } a1 a2 c2
    A E hazl2 ha1 ha2]
  refine ⟨?_, ?_, ?_⟩
  · intro hb
    simp [hb, addPose]
  · intro hb
    simp [hb, logMsg]
  · intro hne
    constructor
    · intro hpose
      by_contra hb
      rw [Bool.not_eq_true] at hb
      simp [hb, logMsg] at hpose
      exact hne hpose
    · intro hb
      simp [hb, addPose]

/-- C3 witness: the amended theorem applied at a concrete in-bounds
target. -/
theorem C3_offset_azel_witness :
    lookupLoc baseState.ephemeris_locations "offset" = none ∧
    lookupLoc baseState.ephemeris_locations "azel" = none ∧
    testPrims.float "5" = some 5 ∧
    testPrims.float "180" = some 180 ∧
    testPrims.float "45" = some 45 ∧
    ((angles_within_bounds baseState.az_limits baseState.el_limits 180 45 = true →
      (offsetThenAzel testPrims "5" "5" "180" "45" "offset 5 5" "azel 180 45"
          baseState).rotor_cmd_location = (180 + 5, 45 + 5)) ∧
    (angles_within_bounds baseState.az_limits baseState.el_limits 180 45 = false →
      (offsetThenAzel testPrims "5" "5" "180" "45" "offset 5 5" "azel 180 45"
          baseState).rotor_cmd_location = baseState.rotor_cmd_location) ∧
    (baseState.rotor_cmd_location ≠ (180 + 5, 45 + 5) →
      ((offsetThenAzel testPrims "5" "5" "180" "45" "offset 5 5" "azel 180 45"
          baseState).rotor_cmd_location = (180 + 5, 45 + 5) ↔
        angles_within_bounds baseState.az_limits baseState.el_limits 180 45
          = true))) :=
  ⟨by decide, by decide, by decide, by decide, by decide,
    C3_offset_azel testPrims baseState "5" "5" "180" "45" "offset 5 5"
      "azel 180 45" 5 5 180 45 (by decide) (by decide) (by decide) (by decide)
      (by decide) (by decide)⟩

/-! ### C4 -/

/-- C4: an object-track command naming a catalog object whose current
position is outside the motor limits logs
`"Object <key> Not in Motor Bounds"`, leaves `commanded_pose`
unchanged, clears `ephemeris_cmd_location` to `None`, and raises no
exception. -/
theorem C4_track_out_of_bounds (P : Prims) (s : DaemonState) (key c : String)
    (rest : List String) (pos : ℚ × ℚ)
    (hobj : lookupLoc s.ephemeris_locations key = some pos)
    (hn : rest[0]? ≠ some "n") (hb : rest[0]? ≠ some "b")
    (hout : angles_within_bounds s.az_limits s.el_limits pos.1 pos.2 = false) :
    (execTokens P (key :: rest) c s).1.command_error_logs =
        s.command_error_logs ++ [s!"Object {key} Not in Motor Bounds"] ∧
    (execTokens P (key :: rest) c s).1.rotor_cmd_location =
        s.rotor_cmd_location ∧
    (execTokens P (key :: rest) c s).1.motor_offsets = s.motor_offsets ∧
    (execTokens P (key :: rest) c s).1.ephemeris_cmd_location = none ∧
    (execTokens P (key :: rest) c s).2 = none := by
  rw [execTokens_track P s key c rest pos hobj hn hb]
  simp [trackObject, hout, logMsg]

/-- C4 witness: `Polaris` at (0, 89) with elevation limits [0, 85]. -/
theorem C4_track_out_of_bounds_witness :
    lookupLoc ({ baseState with
        el_limits := (0, 85) } : DaemonState).ephemeris_locations "Polaris"
      = some (0, 89) ∧
    (([] : List String)[0]? ≠ some "n") ∧
    (([] : List String)[0]? ≠ some "b") ∧
    angles_within_bounds ({ baseState with el_limits := (0, 85) } :
        DaemonState).az_limits (0, 85) 0 89 = false ∧
    ((execTokens testPrims ["Polaris"] "Polaris"
        { baseState with el_limits := (0, 85) }).1.command_error_logs =
        ({ baseState with el_limits := (0, 85) } :
            DaemonState).command_error_logs ++
          ["Object Polaris Not in Motor Bounds"] ∧
    (execTokens testPrims ["Polaris"] "Polaris"
        { baseState with el_limits := (0, 85) }).1.rotor_cmd_location =
        ({ baseState with el_limits := (0, 85) } :
            DaemonState).rotor_cmd_location ∧
    (execTokens testPrims ["Polaris"] "Polaris"
        { baseState with el_limits := (0, 85) }).1.motor_offsets =
        ({ baseState with el_limits := (0, 85) } : DaemonState).motor_offsets ∧
    (execTokens testPrims ["Polaris"] "Polaris"
        { baseState with el_limits := (0, 85) }).1.ephemeris_cmd_location
      = none ∧
    (execTokens testPrims ["Polaris"] "Polaris"
        { baseState with el_limits := (0, 85) }).2 = none) :=
  ⟨by decide, by decide, by decide, by decide,
    C4_track_out_of_bounds testPrims { baseState with el_limits := (0, 85) }
      "Polaris" "Polaris" [] (0, 89) (by decide) (by decide) (by decide)
      (by decide)⟩

/-! ### C5 -/

/-- C5: on an ephemeris-updater cycle with `ephemeris_cmd_location`
set to key `k` and refreshed raw position `P`, if `P` is within the
motor limits (checked without offsets) the commanded pose becomes
`P + motor_offsets`; otherwise `"Object <key> moved out of motor
bounds"` is logged and tracking is cleared, with the commanded pose
left unchanged. -/
theorem C5_ephemeris_cycle (newLocs : List (String × (ℚ × ℚ)))
    (s : DaemonState) (k : String) (p : ℚ × ℚ)
    (htr : s.ephemeris_cmd_location = some k)
    (hp : lookupLoc newLocs k = some p) :
    (angles_within_bounds s.az_limits s.el_limits p.1 p.2 = true →
      (updateEphemerisCycle newLocs s).1.rotor_cmd_location =
          addPose p s.motor_offsets ∧
      (updateEphemerisCycle newLocs s).1.ephemeris_cmd_location = some k ∧
      (updateEphemerisCycle newLocs s).2 = none) ∧
    (angles_within_bounds s.az_limits s.el_limits p.1 p.2 = false →
      (updateEphemerisCycle newLocs s).1.command_error_logs =
          s.command_error_logs ++ [s!"Object {k} moved out of motor bounds"] ∧
      (updateEphemerisCycle newLocs s).1.ephemeris_cmd_location = none ∧
      (updateEphemerisCycle newLocs s).1.rotor_cmd_location =
          s.rotor_cmd_location ∧
      (updateEphemerisCycle newLocs s).2 = none) := by
  constructor <;> intro hb <;> simp [updateEphemerisCycle, htr, hp, hb, logMsg]

/-- C5 witness: tracking `Sun` refreshed to (121, 30), in bounds, with
offsets (1, 2). -/
theorem C5_ephemeris_cycle_witness :
    ({ baseState with
        ephemeris_cmd_location := some "Sun",
        motor_offsets := (1, 2) } : DaemonState).ephemeris_cmd_location
      = some "Sun" ∧
    lookupLoc [("Sun", ((121 : ℚ), (30 : ℚ)))] "Sun" = some (121, 30) ∧
    ((angles_within_bounds (0, 360) (0, 90) 121 30 = true →
      (updateEphemerisCycle [("Sun", (121, 30))]
          { baseState with
            ephemeris_cmd_location := some "Sun",
            motor_offsets := (1, 2) }).1.rotor_cmd_location =
          addPose (121, 30) (1, 2) ∧
      (updateEphemerisCycle [("Sun", (121, 30))]
          { baseState with
            ephemeris_cmd_location := some "Sun",
            motor_offsets := (1, 2) }).1.ephemeris_cmd_location = some "Sun" ∧
      (updateEphemerisCycle [("Sun", (121, 30))]
          { baseState with
            ephemeris_cmd_location := some "Sun",
            motor_offsets := (1, 2) }).2 = none) ∧
    (angles_within_bounds (0, 360) (0, 90) 121 30 = false →
      (updateEphemerisCycle [("Sun", (121, 30))]
          { baseState with
            ephemeris_cmd_location := some "Sun",
            motor_offsets := (1, 2) }).1.command_error_logs =
          [] ++ ["Object Sun moved out of motor bounds"] ∧
      (updateEphemerisCycle [("Sun", (121, 30))]
          { baseState with
            ephemeris_cmd_location := some "Sun",
            motor_offsets := (1, 2) }).1.ephemeris_cmd_location = none ∧
      (updateEphemerisCycle [("Sun", (121, 30))]
          { baseState with
            ephemeris_cmd_location := some "Sun",
            motor_offsets := (1, 2) }).1.rotor_cmd_location = (0, 90) ∧
      (updateEphemerisCycle [("Sun", (121, 30))]
          { baseState with
            ephemeris_cmd_location := some "Sun",
            motor_offsets := (1, 2) }).2 = none)) :=
  ⟨by decide, by decide,
    C5_ephemeris_cycle [("Sun", (121, 30))]
      { baseState with
        ephemeris_cmd_location := some "Sun", motor_offsets := (1, 2) }
      "Sun" (121, 30) (by decide) (by decide)⟩

/-! ### C9 -/

lemma execTokens_azel_fails (P : Prims) (s : DaemonState) (c : String)
    (rest : List String)
    (hazl : lookupLoc s.ephemeris_locations "azel" = none)
    (hfail : rest[0]? = none ∨
      (∃ a, rest[0]? = some a ∧ P.float a = none) ∨
      (∃ a x, rest[0]? = some a ∧ P.float a = some x ∧ rest[1]? = none) ∨
      (∃ a x b, rest[0]? = some a ∧ P.float a = some x ∧ rest[1]? = some b ∧
        P.float b = none)) :
    ∃ e, execTokens P ("azel" :: rest) c s =
        ({ s with ephemeris_cmd_location := none }, some e) ∧
      caughtByLoop e = true := by
  rcases hfail with h | ⟨a, ha, hf⟩ | ⟨a, x, ha, hf, h2⟩ |
    ⟨a, x, b, ha, hf, h2, hf2⟩
  · exact ⟨.indexError idxMsg, by simp +decide [execTokens, hazl, h], rfl⟩
  · exact ⟨.valueError valMsg, by simp +decide [execTokens, hazl, ha, hf], rfl⟩
  · exact ⟨.indexError idxMsg,
      by simp +decide [execTokens, hazl, ha, hf, h2], rfl⟩
  · exact ⟨.valueError valMsg,
      by simp +decide [execTokens, hazl, ha, hf, h2, hf2], rfl⟩

lemma execTokens_offset_fails (P : Prims) (s : DaemonState) (c : String)
    (rest : List String)
    (hoff : lookupLoc s.ephemeris_locations "offset" = none)
    (hfail : rest[0]? = none ∨
      (∃ a, rest[0]? = some a ∧ P.float a = none) ∨
      (∃ a x, rest[0]? = some a ∧ P.float a = some x ∧ rest[1]? = none) ∨
      (∃ a x b, rest[0]? = some a ∧ P.float a = some x ∧ rest[1]? = some b ∧
        P.float b = none)) :
    ∃ e, execTokens P ("offset" :: rest) c s = (s, some e) ∧
      caughtByLoop e = true := by
  rcases hfail with h | ⟨a, ha, hf⟩ | ⟨a, x, ha, hf, h2⟩ |
    ⟨a, x, b, ha, hf, h2, hf2⟩
  · exact ⟨.indexError idxMsg, by simp +decide [execTokens, hoff, h], rfl⟩
  · exact ⟨.valueError valMsg, by simp +decide [execTokens, hoff, ha, hf], rfl⟩
  · exact ⟨.indexError idxMsg,
      by simp +decide [execTokens, hoff, ha, hf, h2], rfl⟩
  · exact ⟨.valueError valMsg,
      by simp +decide [execTokens, hoff, ha, hf, h2, hf2], rfl⟩

/-- C9: an `azel` command with missing or unparsable arguments clears
`ephemeris_cmd_location` to `None` before the parse failure, leaving
every other field (in particular `rotor_cmd_location` and
`motor_offsets`) unchanged — so it is not a pure no-op when an object
was being tracked — whereas a malformed `offset` command leaves the
state entirely unchanged, because both arguments are parsed before the
assignment; in both cases the raised error is of a kind the main loop
catches. -/
theorem C9_malformed_azel_offset (P : Prims) (s : DaemonState) (c : String)
    (rest : List String)
    (hazl : lookupLoc s.ephemeris_locations "azel" = none)
    (hoff : lookupLoc s.ephemeris_locations "offset" = none)
    (hfail : rest[0]? = none ∨
      (∃ a, rest[0]? = some a ∧ P.float a = none) ∨
      (∃ a x, rest[0]? = some a ∧ P.float a = some x ∧ rest[1]? = none) ∨
      (∃ a x b, rest[0]? = some a ∧ P.float a = some x ∧ rest[1]? = some b ∧
        P.float b = none)) :
    ((execTokens P ("azel" :: rest) c s).1 =
        { s with ephemeris_cmd_location := none } ∧
      (∃ e, (execTokens P ("azel" :: rest) c s).2 = some e ∧
        caughtByLoop e = true) ∧
      (s.ephemeris_cmd_location ≠ none →
        (execTokens P ("azel" :: rest) c s).1 ≠ s)) ∧
    ((execTokens P ("offset" :: rest) c s).1 = s ∧
      (∃ e, (execTokens P ("offset" :: rest) c s).2 = some e ∧
        caughtByLoop e = true)) := by
  obtain ⟨e1, he1, hc1⟩ := execTokens_azel_fails P s c rest hazl hfail
  obtain ⟨e2, he2, hc2⟩ := execTokens_offset_fails P s c rest hoff hfail
  refine ⟨⟨?_, ⟨e1, ?_, hc1⟩, ?_⟩, ?_, ⟨e2, ?_, hc2⟩⟩
  · rw [he1]
  · rw [he1]
  · intro htr hcontra
    apply htr
    have : (execTokens P ("azel" :: rest) c s).1.ephemeris_cmd_location =
        s.ephemeris_cmd_location := by rw [hcontra]
    rw [he1] at this
    exact this.symm
  · rw [he2]
  · rw [he2]

/-- C9 witness: `azel abc` (unparsable azimuth) and `offset abc` on a
state tracking `Sun`. -/
theorem C9_malformed_azel_offset_witness :
    lookupLoc ({ baseState with
        ephemeris_cmd_location := some "Sun" } :
          DaemonState).ephemeris_locations "azel" = none ∧
    lookupLoc ({ baseState with
        ephemeris_cmd_location := some "Sun" } :
          DaemonState).ephemeris_locations "offset" = none ∧
    (∃ a, (["abc"] : List String)[0]? = some a ∧
      testPrims.float a = none) ∧
    (((execTokens testPrims ["azel", "abc"] "azel abc"
        { baseState with ephemeris_cmd_location := some "Sun" }).1 =
        { baseState with ephemeris_cmd_location := none } ∧
      (∃ e, (execTokens testPrims ["azel", "abc"] "azel abc"
          { baseState with ephemeris_cmd_location := some "Sun" }).2 = some e ∧
        caughtByLoop e = true) ∧
      (({ baseState with ephemeris_cmd_location := some "Sun" } :
            DaemonState).ephemeris_cmd_location ≠ none →
        (execTokens testPrims ["azel", "abc"] "azel abc"
            { baseState with ephemeris_cmd_location := some "Sun" }).1 ≠
          { baseState with ephemeris_cmd_location := some "Sun" })) ∧
    ((execTokens testPrims ["offset", "abc"] "offset abc"
        { baseState with ephemeris_cmd_location := some "Sun" }).1 =
        { baseState with ephemeris_cmd_location := some "Sun" } ∧
      (∃ e, (execTokens testPrims ["offset", "abc"] "offset abc"
          { baseState with ephemeris_cmd_location := some "Sun" }).2 = some e ∧
        caughtByLoop e = true))) :=
  ⟨by decide, by decide, ⟨"abc", by decide, by decide⟩,
    C9_malformed_azel_offset testPrims
      { baseState with ephemeris_cmd_location := some "Sun" } "azel abc"
      ["abc"] (by decide) (by decide)
      (Or.inr (Or.inl ⟨"abc", by decide, by decide⟩))⟩

/-! ### C10 -/

/-- C10: after construction the commanded pose is the stow location
plus the configured motor offsets, while the `stow` command and the
shutdown sequence command the stow location with no offsets applied;
hence the initial commanded pose differs from the post-`stow` pose
whenever the configured offsets are non-zero. -/
theorem C10_init_vs_stow (c : Config) (locs : List (String × (ℚ × ℚ)))
    (P : Prims) (s : DaemonState) (cmd : String)
    (hstow : lookupLoc s.ephemeris_locations "stow" = none) :
    (initDaemon c locs).rotor_cmd_location =
        addPose c.stow_location c.motor_offsets ∧
    (execTokens P ["stow"] cmd s).1.rotor_cmd_location = s.stow_location ∧
    (execTokens P ["stow"] cmd s).1.ephemeris_cmd_location = none ∧
    (shutdownSequence s).rotor_cmd_location = s.stow_location ∧
    (c.motor_offsets ≠ (0, 0) →
      (initDaemon c locs).rotor_cmd_location ≠ c.stow_location) := by
  refine ⟨rfl, ?_, ?_, ?_, ?_⟩
  · rw [execTokens_stow P s cmd hstow]
  · rw [execTokens_stow P s cmd hstow]
  · cases h : s.radio_save_raw_task <;>
      simp [shutdownSequence, terminateRaw, h]
  · intro hoz heq
    apply hoz
    have h1 : c.stow_location.1 + c.motor_offsets.1 = c.stow_location.1 :=
      congrArg Prod.fst heq
    have h2 : c.stow_location.2 + c.motor_offsets.2 = c.stow_location.2 :=
      congrArg Prod.snd heq
    have e1 : c.motor_offsets.1 = 0 := by linarith
    have e2 : c.motor_offsets.2 = 0 := by linarith
    exact Prod.ext e1 e2

/-- C10 witness: a configuration with offsets (1, 2). -/
theorem C10_init_vs_stow_witness :
    lookupLoc baseState.ephemeris_locations "stow" = none ∧
    ((initDaemon
        { az_limits := (0, 360), el_limits := (0, 90),
          stow_location := (0, 90), motor_offsets := (1, 2), beamwidth := 2,
          radio_cf := 1420000000, radio_sf := 2000000, radio_num_bins := 4,
          calibration_file := none } []).rotor_cmd_location =
        addPose (0, 90) (1, 2) ∧
    (execTokens testPrims ["stow"] "stow" baseState).1.rotor_cmd_location
      = (0, 90) ∧
    (execTokens testPrims ["stow"] "stow" baseState).1.ephemeris_cmd_location
      = none ∧
    (shutdownSequence baseState).rotor_cmd_location = (0, 90) ∧
    (((1 : ℚ), (2 : ℚ)) ≠ (0, 0) →
      (initDaemon
        { az_limits := (0, 360), el_limits := (0, 90),
          stow_location := (0, 90), motor_offsets := (1, 2), beamwidth := 2,
          radio_cf := 1420000000, radio_sf := 2000000, radio_num_bins := 4,
          calibration_file := none } []).rotor_cmd_location ≠ (0, 90))) :=
  ⟨by decide,
    C10_init_vs_stow
      { az_limits := (0, 360), el_limits := (0, 90), stow_location := (0, 90),
        motor_offsets := (1, 2), beamwidth := 2, radio_cf := 1420000000,
        radio_sf := 2000000, radio_num_bins := 4, calibration_file := none }
      [] testPrims baseState "stow" (by decide)⟩

/-! ### C6 -/

lemma scanFold_snoc (P : Prims) (pos : ℚ × ℚ) (s0 : DaemonState) (n : ℕ) :
    (List.range (n + 1)).foldl (nPointScanFold P pos) (s0, []) =
      (scanStep P pos
          ((List.range n).foldl (nPointScanFold P pos) (s0, [])).1 n,
        ((List.range n).foldl (nPointScanFold P pos) (s0, [])).2 ++
          [scanStep P pos
            ((List.range n).foldl (nPointScanFold P pos) (s0, [])).1 n]) := by
  rw [List.range_succ, List.foldl_append]
  rfl

lemma scanFold_pres (P : Prims) (pos : ℚ × ℚ) (s0 : DaemonState) (n : ℕ) :
    ((List.range n).foldl (nPointScanFold P pos) (s0, [])).1.beamwidth =
        s0.beamwidth ∧
    ((List.range n).foldl
        (nPointScanFold P pos) (s0, [])).1.ephemeris_cmd_location =
      s0.ephemeris_cmd_location := by
  induction n with
  | zero => exact ⟨rfl, rfl⟩
  | succ n ih =>
    rw [scanFold_snoc]
    exact ⟨ih.1, ih.2⟩

lemma scanFold_len (P : Prims) (pos : ℚ × ℚ) (s0 : DaemonState) (n : ℕ) :
    ((List.range n).foldl (nPointScanFold P pos) (s0, [])).2.length = n := by
  induction n with
  | zero => rfl
  | succ n ih =>
    rw [scanFold_snoc]
    simp [ih]

lemma scanFold_get (P : Prims) (pos : ℚ × ℚ) (s0 : DaemonState) (n i : ℕ)
    (h : i < n) :
    ((List.range n).foldl (nPointScanFold P pos) (s0, [])).2[i]? =
      some (scanStep P pos
        ((List.range i).foldl (nPointScanFold P pos) (s0, [])).1 i) := by
  induction n with
  | zero => omega
  | succ n ih =>
    rw [scanFold_snoc]
    rcases Nat.lt_succ_iff_lt_or_eq.mp h with h1 | h1
    · rw [List.getElem?_append_left (by rw [scanFold_len]; exact h1)]
      exact ih h1
    · subst h1
      rw [show ((List.range i).foldl (nPointScanFold P pos) (s0, [])).2 ++
            [scanStep P pos
              ((List.range i).foldl (nPointScanFold P pos) (s0, [])).1 i] =
          ((List.range i).foldl (nPointScanFold P pos) (s0, [])).2 ++
            [scanStep P pos
              ((List.range i).foldl (nPointScanFold P pos) (s0, [])).1 i]
          from rfl]
      rw [List.getElem?_append_right (by rw [scanFold_len])]
      rw [scanFold_len]
      simp

/-- C6: an `<objectKey> n` command performs exactly 25 pointings; at
scan index `i` the offsets are
`Δel = ((i / 5) - 2) * beamwidth * 0.5` and
`Δaz = ((i % 5) - 2) * beamwidth * 0.5 / cos((el + Δel) * π / 180)`
with `el` the object's elevation, each pointing commands
object position + offsets while `ephemeris_cmd_location` is `None`;
after the sweep the offsets are `(0, 0)` and `ephemeris_cmd_location`
is the object key. -/
theorem C6_raster_scan (P : Prims) (s : DaemonState) (key c : String)
    (pos : ℚ × ℚ)
    (hobj : lookupLoc s.ephemeris_locations key = some pos) :
    (nPointScanRun P key pos s).2.length = 25 ∧
    (∀ i, i < 25 →
      ∃ st, (nPointScanRun P key pos s).2[i]? = some st ∧
        st.motor_offsets =
          (((((i % 5 : ℕ) : ℤ) - 2 : ℤ) : ℚ) * s.beamwidth * 0.5 /
              P.cos ((pos.2 +
                  ((((i / 5 : ℕ) : ℤ) - 2 : ℤ) : ℚ) * s.beamwidth * 0.5) *
                P.pi / 180),
            ((((i / 5 : ℕ) : ℤ) - 2 : ℤ) : ℚ) * s.beamwidth * 0.5) ∧
        st.rotor_cmd_location = addPose pos st.motor_offsets ∧
        st.ephemeris_cmd_location = none) ∧
    (nPointScanRun P key pos s).1.motor_offsets = (0, 0) ∧
    (nPointScanRun P key pos s).1.ephemeris_cmd_location = some key ∧
    (execTokens P [key, "n"] c s).1 = (nPointScanRun P key pos s).1 := by
  refine ⟨?_, ?_, rfl, rfl, ?_⟩
  · exact scanFold_len P pos { s with ephemeris_cmd_location := none } 25
  · intro i h
    refine ⟨scanStep P pos
        ((List.range i).foldl (nPointScanFold P pos)
          ({ s with ephemeris_cmd_location := none }, [])).1 i,
      scanFold_get P pos { s with ephemeris_cmd_location := none } 25 i h,
      ?_, ?_, ?_⟩
    · have hb := (scanFold_pres P pos
        { s with ephemeris_cmd_location := none } i).1
      simp [scanStep, scanOffsets, hb]
    · have hb := (scanFold_pres P pos
        { s with ephemeris_cmd_location := none } i).1
      simp [scanStep, scanOffsets, hb]
    · exact (scanFold_pres P pos { s with ephemeris_cmd_location := none } i).2
  · rw [execTokens_scan_accepts P s key c pos hobj]

/-- C6 witness: scan of `Sun` at (120, 30), inspected at scan index 7. -/
theorem C6_raster_scan_witness :
    lookupLoc baseState.ephemeris_locations "Sun" = some (120, 30) ∧
    (7 < 25 ∧
    ((nPointScanRun testPrims "Sun" (120, 30) baseState).2.length = 25 ∧
    (∃ st, (nPointScanRun testPrims "Sun" (120, 30) baseState).2[7]? = some st ∧
      st.motor_offsets =
        (((((7 % 5 : ℕ) : ℤ) - 2 : ℤ) : ℚ) * baseState.beamwidth * 0.5 /
            testPrims.cos ((((120 : ℚ), (30 : ℚ)).2 +
                ((((7 / 5 : ℕ) : ℤ) - 2 : ℤ) : ℚ) * baseState.beamwidth * 0.5) *
              testPrims.pi / 180),
          ((((7 / 5 : ℕ) : ℤ) - 2 : ℤ) : ℚ) * baseState.beamwidth * 0.5) ∧
      st.rotor_cmd_location = addPose (120, 30) st.motor_offsets ∧
      st.ephemeris_cmd_location = none) ∧
    (nPointScanRun testPrims "Sun" (120, 30) baseState).1.motor_offsets
      = (0, 0) ∧
    (nPointScanRun testPrims "Sun" (120, 30)
        baseState).1.ephemeris_cmd_location = some "Sun" ∧
    (execTokens testPrims ["Sun", "n"] "Sun n" baseState).1 =
      (nPointScanRun testPrims "Sun" (120, 30) baseState).1)) := by
  have h := C6_raster_scan testPrims baseState "Sun" "Sun n" (120, 30)
    (by decide)
  exact ⟨by decide, by decide,
    h.1, h.2.1 7 (by decide), h.2.2.1, h.2.2.2.1, h.2.2.2.2⟩

/-! ### C7 and C8: the recording handle -/

lemma setLive_length (b : Bool) (l : List RecTask) (i : ℕ) :
    (setLive b l i).length = l.length := by
  induction l generalizing i with
  | nil => rfl
  | cons t ts ih =>
    cases i with
    | zero => rfl
    | succ n => simp [setLive, ih]

lemma setLive_getElem_self (l : List RecTask) (i : ℕ) (t : RecTask)
    (h : l[i]? = some t) :
    (setLive false l i)[i]? = some { t with live := false } := by
  induction l generalizing i with
  | nil => simp at h
  | cons hd ts ih =>
    cases i with
    | zero =>
      simp only [List.getElem?_cons_zero, Option.some.injEq] at h
      subst h
      simp [setLive]
    | succ n =>
      simp only [List.getElem?_cons_succ] at h
      simpa [setLive] using ih n h

lemma filter_setLive_false (l : List RecTask) (i : ℕ) (t : RecTask)
    (h : l[i]? = some t) (ht : t.live = true) :
    ((setLive false l i).filter RecTask.live).length + 1 =
      (l.filter RecTask.live).length := by
  induction l generalizing i with
  | nil => simp at h
  | cons hd ts ih =>
    cases i with
    | zero =>
      simp only [List.getElem?_cons_zero, Option.some.injEq] at h
      subst h
      simp [setLive, List.filter_cons, ht]
    | succ n =>
      simp only [List.getElem?_cons_succ] at h
      have := ih n h
      by_cases hl : hd.live = true <;>
        simp [setLive, List.filter_cons, hl] <;> omega

lemma terminateRaw_handle (s : DaemonState) :
    (terminateRaw s).radio_save_raw_task = s.radio_save_raw_task := by
  cases h : s.radio_save_raw_task <;> simp [terminateRaw, h]

lemma terminateRaw_eph (s : DaemonState) :
    (terminateRaw s).ephemeris_locations = s.ephemeris_locations := by
  cases h : s.radio_save_raw_task <;> simp [terminateRaw, h]

lemma liveCount_startRaw (s : DaemonState) :
    liveCount (startRaw s) = liveCount s + 1 := by
  simp [liveCount, startRaw, List.filter_append, RecTask.live]

lemma liveCount_terminate_eq (s : DaemonState) (i : ℕ) (t : RecTask)
    (hh : s.radio_save_raw_task = some i)
    (htask : s.tasks[i]? = some t) (ht : t.live = true)
    (hone : liveCount s ≤ 1) :
    liveCount (terminateRaw s) = 0 ∧ liveCount s = 1 := by
  have hmem : t ∈ s.tasks := List.getElem?_mem htask
  have hpos : 0 < liveCount s := by
    have hmf : t ∈ s.tasks.filter RecTask.live :=
      List.mem_filter.mpr ⟨hmem, ht⟩
    exact List.length_pos.mpr (List.ne_nil_of_mem hmf)
  have heq := filter_setLive_false s.tasks i t htask ht
  have hterm : liveCount (terminateRaw s) + 1 = liveCount s := by
    simp only [terminateRaw, hh, liveCount]
    exact heq
  omega

lemma execTokens_samp_active (P : Prims) (s : DaemonState) (a c : String)
    (f : ℚ) (i : ℕ)
    (hsamp : lookupLoc s.ephemeris_locations "samp" = none)
    (hh : s.radio_save_raw_task = some i)
    (hf : P.float a = some f) :
    execTokens P ["samp", a] c s =
      (if P.rpcOk then
        (startRaw { terminateRaw s with radio_sample_frequency := f * 10 ^ 6 },
          none)
      else
        ({ terminateRaw s with radio_sample_frequency := f * 10 ^ 6 },
          some (.connRefused rpcMsg))) := by
  by_cases hrpc : P.rpcOk = true
  · simp +decide [execTokens, hsamp, hh, hf, hrpc, terminateRaw_handle]
  · rw [Bool.not_eq_true] at hrpc
    simp +decide [execTokens, hsamp, hh, hf, hrpc]

lemma sampTrace_active (P : Prims) (a : String) (s : DaemonState) (f : ℚ)
    (i : ℕ)
    (hh : s.radio_save_raw_task = some i) (hf : P.float a = some f)
    (hrpc : P.rpcOk = true) :
    sampTrace P a s =
      [s, terminateRaw s,
        { terminateRaw s with radio_sample_frequency := f * 10 ^ 6 },
        startRaw { terminateRaw s with
          radio_sample_frequency := f * 10 ^ 6 }] := by
  simp [sampTrace, hh, hf, hrpc, terminateRaw_handle]

lemma execTokens_record_busy (P : Prims) (s : DaemonState) (c : String)
    (i : ℕ)
    (hrec : lookupLoc s.ephemeris_locations "record" = none)
    (hh : s.radio_save_raw_task = some i) :
    execTokens P ["record"] c s =
      (logMsg "Cannot Start Recording - Already Recording" s, none) := by
  simp +decide [execTokens, hrec, hh]

/-- C7: a `samp F` command with an active recording stores sample rate
`F * 10 ^ 6`, terminates the old recording task and starts a fresh one
at the new rate (the new handle's task is live at rate `F * 10 ^ 6`,
the old task is no longer live), raises no error, and at every
micro-state of the transition at most one recording task is live; the
micro-state trace ends in the command's final state. -/
theorem C7_samp_restarts_recording (P : Prims) (s : DaemonState)
    (a c : String) (f : ℚ) (i : ℕ) (t : RecTask)
    (hsamp : lookupLoc s.ephemeris_locations "samp" = none)
    (hh : s.radio_save_raw_task = some i)
    (htask : s.tasks[i]? = some t) (ht : t.live = true)
    (hone : liveCount s ≤ 1)
    (hf : P.float a = some f) (hrpc : P.rpcOk = true) :
    (execTokens P ["samp", a] c s).1.radio_sample_frequency = f * 10 ^ 6 ∧
    (execTokens P ["samp", a] c s).1.radio_save_raw_task =
        some s.tasks.length ∧
    (execTokens P ["samp", a] c s).1.tasks[s.tasks.length]? =
        some ⟨f * 10 ^ 6, true⟩ ∧
    (execTokens P ["samp", a] c s).1.tasks[i]? =
        some { t with live := false } ∧
    (execTokens P ["samp", a] c s).2 = none ∧
    (∀ st ∈ sampTrace P a s, liveCount st ≤ 1) ∧
    (sampTrace P a s).getLast? = some (execTokens P ["samp", a] c s).1 := by
  have hilt : i < s.tasks.length := by
    rcases List.getElem?_eq_some.mp htask with ⟨hlt, _⟩
    exact hlt
  have hterm := liveCount_terminate_eq s i t hh htask ht hone
  have htt : (terminateRaw s).tasks = setLive false s.tasks i := by
    simp [terminateRaw, hh]
  have hlen : (setLive false s.tasks i).length = s.tasks.length :=
    setLive_length false s.tasks i
  have hfin : execTokens P ["samp", a] c s =
      (startRaw { terminateRaw s with
        radio_sample_frequency := f * 10 ^ 6 }, none) := by
    rw [execTokens_samp_active P s a c f i hsamp hh hf]
    simp [hrpc]
  have htr := sampTrace_active P a s f i hh hf hrpc
  refine ⟨?_, ?_, ?_, ?_, ?_, ?_, ?_⟩
  · rw [hfin]
    rfl
  · rw [hfin]
    show some (({ terminateRaw s with
        radio_sample_frequency := f * 10 ^ 6 } :
          DaemonState).tasks.length) = some s.tasks.length
    rw [show ({ terminateRaw s with
        radio_sample_frequency := f * 10 ^ 6 } : DaemonState).tasks =
        (terminateRaw s).tasks from rfl, htt, hlen]
  · rw [hfin]
    show ((terminateRaw s).tasks ++
        [(⟨f * 10 ^ 6, true⟩ : RecTask)])[s.tasks.length]? =
      some ⟨f * 10 ^ 6, true⟩
    rw [htt, show s.tasks.length = (setLive false s.tasks i).length
      from hlen.symm]
    exact List.getElem?_concat_length _ _
  · rw [hfin]
    show ((terminateRaw s).tasks ++
        [(⟨f * 10 ^ 6, true⟩ : RecTask)])[i]? = some { t with live := false }
    rw [htt, List.getElem?_append_left (by rw [hlen]; exact hilt)]
    exact setLive_getElem_self s.tasks i t htask
  · rw [hfin]
  · intro st hst
    rw [htr] at hst
    simp only [List.mem_cons, List.not_mem_nil, or_false] at hst
    rcases hst with rfl | rfl | rfl | rfl
    · exact hone
    · omega
    · show liveCount (terminateRaw s) ≤ 1
      omega
    · rw [liveCount_startRaw]
      show liveCount (terminateRaw s) + 1 ≤ 1
      omega
  · rw [htr, hfin]
    rfl

/-- C7 witness: `samp 2` with an active recording task. -/
theorem C7_samp_restarts_recording_witness :
    lookupLoc ({ baseState with
        tasks := [⟨2000000, true⟩], radio_save_raw_task := some 0 } :
          DaemonState).ephemeris_locations "samp" = none ∧
    ({ baseState with
        tasks := [⟨2000000, true⟩], radio_save_raw_task := some 0 } :
          DaemonState).radio_save_raw_task = some 0 ∧
    ({ baseState with
        tasks := [⟨2000000, true⟩], radio_save_raw_task := some 0 } : DaemonState).tasks[0]? =
      some ⟨2000000, true⟩ ∧
    testPrims.float "2" = some 2 ∧
    ((execTokens testPrims ["samp", "2"] "samp 2"
        { baseState with
          tasks := [⟨2000000, true⟩], radio_save_raw_task := some 0 }).1.radio_sample_frequency =
        2 * 10 ^ 6 ∧
    (execTokens testPrims ["samp", "2"] "samp 2"
        { baseState with
          tasks := [⟨2000000, true⟩], radio_save_raw_task := some 0 }).1.radio_save_raw_task = some 1 ∧
    (execTokens testPrims ["samp", "2"] "samp 2"
        { baseState with
          tasks := [⟨2000000, true⟩], radio_save_raw_task := some 0 }).1.tasks[1]? =
      some ⟨2 * 10 ^ 6, true⟩ ∧
    (execTokens testPrims ["samp", "2"] "samp 2"
        { baseState with
          tasks := [⟨2000000, true⟩], radio_save_raw_task := some 0 }).1.tasks[0]? =
      some ⟨2000000, false⟩ ∧
    (execTokens testPrims ["samp", "2"] "samp 2"
        { baseState with
          tasks := [⟨2000000, true⟩], radio_save_raw_task := some 0 }).2 = none ∧
    (∀ st ∈ sampTrace testPrims "2"
        { baseState with
          tasks := [⟨2000000, true⟩], radio_save_raw_task := some 0 }, liveCount st ≤ 1) ∧
    (sampTrace testPrims "2"
        { baseState with
          tasks := [⟨2000000, true⟩], radio_save_raw_task := some 0 }).getLast? =
      some (execTokens testPrims ["samp", "2"] "samp 2"
        { baseState with
          tasks := [⟨2000000, true⟩], radio_save_raw_task := some 0 }).1) :=
  ⟨by decide, by decide, by decide, by decide,
    C7_samp_restarts_recording testPrims
      { baseState with
        tasks := [⟨2000000, true⟩], radio_save_raw_task := some 0 } "2" "samp 2" 2 0 ⟨2000000, true⟩
      (by decide) (by decide) (by decide) (by decide) (by decide) (by decide)
      (by decide)⟩

/-- C8: if `set_samp_rate` raises a connection error during a `samp`
command with an active recording, the recording task has already been
terminated but the handle remains set, so no recording is live, yet a
subsequent `record` command is rejected with
`"Cannot Start Recording - Already Recording"` and starts nothing. -/
theorem C8_samp_rpc_failure_blocks_record (P : Prims) (s : DaemonState)
    (a c c2 : String) (f : ℚ) (i : ℕ) (t : RecTask)
    (hsamp : lookupLoc s.ephemeris_locations "samp" = none)
    (hrec : lookupLoc s.ephemeris_locations "record" = none)
    (hh : s.radio_save_raw_task = some i)
    (htask : s.tasks[i]? = some t) (ht : t.live = true)
    (hone : liveCount s ≤ 1)
    (hf : P.float a = some f) (hrpc : P.rpcOk = false) :
    (execTokens P ["samp", a] c s).2 = some (.connRefused rpcMsg) ∧
    caughtByLoop (.connRefused rpcMsg) = true ∧
    (execTokens P ["samp", a] c s).1.radio_save_raw_task = some i ∧
    (execTokens P ["samp", a] c s).1.tasks[i]? =
        some { t with live := false } ∧
    liveCount (execTokens P ["samp", a] c s).1 = 0 ∧
    (execTokens P ["record"] c2 (execTokens P ["samp", a] c s).1).1.command_error_logs =
        (execTokens P ["samp", a] c s).1.command_error_logs ++
          ["Cannot Start Recording - Already Recording"] ∧
    (execTokens P ["record"] c2 (execTokens P ["samp", a] c s).1).1.tasks =
        (execTokens P ["samp", a] c s).1.tasks ∧
    (execTokens P ["record"] c2 (execTokens P ["samp", a] c s).1).1.radio_save_raw_task =
        some i ∧
    (execTokens P ["record"] c2 (execTokens P ["samp", a] c s).1).2 = none := by
  have hterm := liveCount_terminate_eq s i t hh htask ht hone
  have htt : (terminateRaw s).tasks = setLive false s.tasks i := by
    simp [terminateRaw, hh]
  have hfin : execTokens P ["samp", a] c s =
      ({ terminateRaw s with radio_sample_frequency := f * 10 ^ 6 },
        some (.connRefused rpcMsg)) := by
    rw [execTokens_samp_active P s a c f i hsamp hh hf]
    simp [hrpc]
  have hhandle : ({ terminateRaw s with
      radio_sample_frequency := f * 10 ^ 6 } :
        DaemonState).radio_save_raw_task = some i := by
    rw [show ({ terminateRaw s with
        radio_sample_frequency := f * 10 ^ 6 } :
          DaemonState).radio_save_raw_task =
        (terminateRaw s).radio_save_raw_task from rfl, terminateRaw_handle]
    exact hh
  have hrec2 : lookupLoc ({ terminateRaw s with
      radio_sample_frequency := f * 10 ^ 6 } :
        DaemonState).ephemeris_locations "record" = none := by
    rw [show ({ terminateRaw s with
        radio_sample_frequency := f * 10 ^ 6 } :
          DaemonState).ephemeris_locations =
        (terminateRaw s).ephemeris_locations from rfl, terminateRaw_eph]
    exact hrec
  have hrecstep := execTokens_record_busy P
    ({ terminateRaw s with radio_sample_frequency := f * 10 ^ 6 } :
      DaemonState) c2 i hrec2 hhandle
  refine ⟨?_, rfl, ?_, ?_, ?_, ?_, ?_, ?_, ?_⟩
  · rw [hfin]
  · rw [hfin]
    exact hhandle
  · rw [hfin]
    show ((terminateRaw s).tasks)[i]? = some { t with live := false }
    rw [htt]
    exact setLive_getElem_self s.tasks i t htask
  · rw [hfin]
    show liveCount (terminateRaw s) = 0
    exact hterm.1
  · simp [hfin, hrecstep, logMsg]
  · rw [hfin, hrecstep]
    simp [logMsg]
  · rw [hfin, hrecstep]
    exact hhandle
  · rw [hfin, hrecstep]

/-- C8 witness: `samp 2` with a refused RPC connection, then `record`. -/
theorem C8_samp_rpc_failure_blocks_record_witness :
    lookupLoc ({ baseState with
        tasks := [⟨2000000, true⟩], radio_save_raw_task := some 0 } :
          DaemonState).ephemeris_locations "samp" = none ∧
    lookupLoc ({ baseState with
        tasks := [⟨2000000, true⟩], radio_save_raw_task := some 0 } :
          DaemonState).ephemeris_locations "record" = none ∧
    ({ testPrims with rpcOk := false } : Prims).float "2" = some 2 ∧
    ((execTokens { testPrims with rpcOk := false } ["samp", "2"] "samp 2"
        { baseState with
          tasks := [⟨2000000, true⟩], radio_save_raw_task := some 0 }).2 =
        some (.connRefused rpcMsg) ∧
    caughtByLoop (.connRefused rpcMsg) = true ∧
    (execTokens { testPrims with rpcOk := false } ["samp", "2"] "samp 2"
        { baseState with
          tasks := [⟨2000000, true⟩], radio_save_raw_task := some 0 }).1.radio_save_raw_task = some 0 ∧
    (execTokens { testPrims with rpcOk := false } ["samp", "2"] "samp 2"
        { baseState with
          tasks := [⟨2000000, true⟩], radio_save_raw_task := some 0 }).1.tasks[0]? =
      some ⟨2000000, false⟩ ∧
    liveCount (execTokens { testPrims with rpcOk := false } ["samp", "2"]
        "samp 2" { baseState with
          tasks := [⟨2000000, true⟩], radio_save_raw_task := some 0 }).1 = 0 ∧
    (execTokens { testPrims with rpcOk := false } ["record"] "record"
        (execTokens { testPrims with rpcOk := false } ["samp", "2"] "samp 2"
          { baseState with
            tasks := [⟨2000000, true⟩], radio_save_raw_task := some 0 }).1).1.command_error_logs =
      (execTokens { testPrims with rpcOk := false } ["samp", "2"] "samp 2"
        { baseState with
          tasks := [⟨2000000, true⟩], radio_save_raw_task := some 0 }).1.command_error_logs ++
        ["Cannot Start Recording - Already Recording"] ∧
    (execTokens { testPrims with rpcOk := false } ["record"] "record"
        (execTokens { testPrims with rpcOk := false } ["samp", "2"] "samp 2"
          { baseState with
            tasks := [⟨2000000, true⟩], radio_save_raw_task := some 0 }).1).1.tasks =
      (execTokens { testPrims with rpcOk := false } ["samp", "2"] "samp 2"
        { baseState with
          tasks := [⟨2000000, true⟩], radio_save_raw_task := some 0 }).1.tasks ∧
    (execTokens { testPrims with rpcOk := false } ["record"] "record"
        (execTokens { testPrims with rpcOk := false } ["samp", "2"] "samp 2"
          { baseState with
            tasks := [⟨2000000, true⟩], radio_save_raw_task := some 0 }).1).1.radio_save_raw_task =
      some 0 ∧
    (execTokens { testPrims with rpcOk := false } ["record"] "record"
        (execTokens { testPrims with rpcOk := false } ["samp", "2"] "samp 2"
          { baseState with
            tasks := [⟨2000000, true⟩], radio_save_raw_task := some 0 }).1).2 = none) :=
  ⟨by decide, by decide, by decide,
    C8_samp_rpc_failure_blocks_record { testPrims with rpcOk := false }
      { baseState with
        tasks := [⟨2000000, true⟩], radio_save_raw_task := some 0 } "2" "samp 2" "record" 2 0
      ⟨2000000, true⟩ (by decide) (by decide) (by decide) (by decide)
      (by decide) (by decide) (by decide) (by decide)⟩

/-! ### C2 -/

/-- C2: counterexample.  With `calibration.json` missing when the
interpreter re-reads it after a `calibrate` command, the `open` call
raises `FileNotFoundError`, which none of the main loop's `except`
clauses (`IndexError`, `ValueError`, `ConnectionRefusedError`)
catches: the error propagates out of the daemon's main loop and no
read error is logged. -/
theorem C2_counterexample :
    (interpretOne { testPrims with calRead := .missing } "calibrate"
        baseState).2 = some (.fileNotFound fnfMsg) ∧
    (interpretOne { testPrims with calRead := .missing } "calibrate"
        baseState).1.command_error_logs = [] ∧
    caughtByLoop (.fileNotFound fnfMsg) = false := by
  refine ⟨by decide, by decide, rfl⟩

/-- C2 (amended): errors of the kinds the main loop catches
(IndexError, ValueError, ConnectionRefusedError) never propagate: they
are logged via `log_message(str(e))` and the loop continues, and
commands that raise nothing also continue the loop.  After a
`calibrate`, undecodable JSON in `calibration.json` raises a
`ValueError`, which is logged and contained; a missing
`calibration.json`, however, raises `FileNotFoundError`, which no
`except` clause catches, so it propagates out of the daemon's main
loop with nothing logged. -/
theorem C2_error_containment (P : Prims) (raw : String) (s : DaemonState) :
    (∀ s1 e, execCommand P raw s = (s1, some e) → caughtByLoop e = true →
      interpretOne P raw s = (logMsg (excMessage e) s1, none)) ∧
    (∀ s1, execCommand P raw s = (s1, none) →
      interpretOne P raw s = (s1, none)) ∧
    (lookupLoc s.ephemeris_locations "calibrate" = none →
      raw = "calibrate" →
      (P.calRead = .badJson →
        interpretOne P raw s =
          (logMsg (excMessage (.valueError "Expecting value")) s, none)) ∧
      (P.calRead = .missing →
        interpretOne P raw s = (s, some (.fileNotFound fnfMsg)))) := by
  refine ⟨?_, ?_, ?_⟩
  · intro s1 e hexec hcaught
    simp [interpretOne, hexec, hcaught]
  · intro s1 hexec
    simp [interpretOne, hexec]
  · intro hcal hraw
    subst hraw
    constructor
    · intro hbad
      have hexec : execCommand P "calibrate" s =
          (s, some (.valueError "Expecting value")) := by
        simp +decide [execCommand, execTokens, pySplitSpace, hcal, hbad]
      simp [interpretOne, hexec, caughtByLoop]
    · intro hmiss
      have hexec : execCommand P "calibrate" s =
          (s, some (.fileNotFound fnfMsg)) := by
        simp +decide [execCommand, execTokens, pySplitSpace, hcal, hmiss]
      simp [interpretOne, hexec, caughtByLoop]

/-- C2 witness: a caught IndexError (`azel` with no arguments) is
logged and contained. -/
theorem C2_error_containment_witness :
    (execCommand testPrims "azel" baseState =
      ({ baseState with ephemeris_cmd_location := none },
        some (.indexError idxMsg)) ∧
      caughtByLoop (.indexError idxMsg) = true) ∧
    interpretOne testPrims "azel" baseState =
      (logMsg (excMessage (.indexError idxMsg))
        { baseState with ephemeris_cmd_location := none }, none) :=
  ⟨⟨by decide, by decide⟩,
    (C2_error_containment testPrims "azel" baseState).1
      { baseState with ephemeris_cmd_location := none } (.indexError idxMsg)
      (by decide) (by decide)⟩

end SRT
